import Mathlib

/-!
Verification development for the mqtt-tracker-simulator repository.

Shallow embedding of the core C++ code (src/core) in Lean 4:
pure functions become Lean functions, stateful member functions become
explicit state-passing functions, machine doubles become rationals
(the numeric operations exercised here - assignment, comparison against
literal thresholds, truncation to `int` - are exact in double precision,
so the rational model is faithful), `std::queue` becomes a list with the
front at the head, and fallible JSON access becomes `Except`.

Naming mirrors the source: each namespace corresponds to one C++ class
or file, and each definition keeps the source function's name.
-/

namespace Tracker

/-! ## Event model (src/core/Event.hpp) -/

/-- `EventType` enum from Event.hpp. -/
inductive EventType where
  | Heartbeat
  | IgnitionOn
  | IgnitionOff
  | MotionStart
  | MotionStop
  | GeofenceEnter
  | GeofenceExit
  | SpeedOverLimit
  | LowBattery
deriving DecidableEq, Repr

/-- `struct Location` from Event.hpp (doubles modelled as rationals,
with the C++ member initializers as defaults). -/
structure Location where
  lat : ℚ := 0
  lon : ℚ := 0
  alt : ℚ := 0
  accuracy : ℚ := 0
deriving DecidableEq, Repr

/-- `struct BatteryInfo` from Event.hpp. -/
structure BatteryInfo where
  percentage : ℚ := 100
  voltage : ℚ := 4
deriving DecidableEq, Repr

/-- `struct NetworkInfo` from Event.hpp. -/
structure NetworkInfo where
  rssi : ℤ := -70
  rat : String := "LTE"
deriving DecidableEq, Repr

/-- `struct Event` from Event.hpp. `extras` is a
`std::unordered_map<std::string,std::string>`, modelled as an
association list; two lists in strictly key-sorted order represent
equal maps iff the lists are equal. The C++ struct leaves `eventType`
uninitialized; every construction site in the source assigns it before
use, so the default chosen here is never observable. -/
structure Event where
  deviceId : String := ""
  timestamp : String := ""
  eventType : EventType := .Heartbeat
  sequence : ℕ := 0
  location : Location := {}
  speedKph : ℚ := 0
  heading : ℚ := 0
  battery : BatteryInfo := {}
  network : NetworkInfo := {}
  extras : List (String × String) := []
deriving DecidableEq, Repr

/-- `eventTypeToString` from Event.cpp: the nine-entry `typeMap`. -/
def eventTypeToString : EventType → String
  | .Heartbeat => "heartbeat"
  | .IgnitionOn => "ignition_on"
  | .IgnitionOff => "ignition_off"
  | .MotionStart => "motion_start"
  | .MotionStop => "motion_stop"
  | .GeofenceEnter => "geofence_enter"
  | .GeofenceExit => "geofence_exit"
  | .SpeedOverLimit => "speed_over_limit"
  | .LowBattery => "low_battery"

/-- The `stringMap` of `stringToEventType` (Event.cpp) as an association
list; `unordered_map::find` is key lookup, order immaterial. -/
def stringMap : List (String × EventType) :=
  [("heartbeat", .Heartbeat),
   ("ignition_on", .IgnitionOn),
   ("ignition_off", .IgnitionOff),
   ("motion_start", .MotionStart),
   ("motion_stop", .MotionStop),
   ("geofence_enter", .GeofenceEnter),
   ("geofence_exit", .GeofenceExit),
   ("speed_over_limit", .SpeedOverLimit),
   ("low_battery", .LowBattery)]

/-- `stringToEventType` from Event.cpp: look the string up in
`stringMap`; return `EventType::Heartbeat` when absent. -/
def stringToEventType (s : String) : EventType :=
  (stringMap.lookup s).getD .Heartbeat

/-- The nine recognized event-type names (the keys of `stringMap`). -/
def eventTypeNames : List String := stringMap.map Prod.fst

end Tracker

namespace Tracker

/-! ## JSON values (the nlohmann::json trees the codec builds and reads)

`JsonCodec::serialize` is `eventToJson` followed by `nlohmann::json::dump`,
and `JsonCodec::deserialize` is `nlohmann::json::parse` followed by
`jsonToEvent`. `dump`/`parse` round-trip a JSON tree exactly (numbers are
printed in shortest round-trip form, object keys are sorted; `jsonToEvent`
reads fields by key, so key order is immaterial). The composition
`deserialize ∘ serialize` is therefore modelled as `jsonToEvent ∘ eventToJson`
on JSON trees. -/

/-- A JSON value. Numbers are rationals: every number the codec writes
(doubles, ints, uint64) is a rational, and `dump`/`parse` reproduce it
exactly. -/
inductive Json where
  | null
  | bool (b : Bool)
  | num (q : ℚ)
  | str (s : String)
  | arr (elems : List Json)
  | obj (fields : List (String × Json))
deriving Repr

/-- `static_cast<int>` / `static_cast<int64_t>` on a double: truncation
toward zero. -/
def truncQ (q : ℚ) : ℤ := if 0 ≤ q then q.floor else q.ceil

/-- `topic.find(p) == 0` / `rfind(p, 0) == 0` in the source: the string
begins with `p` (modelled on the character lists so that concrete
instances evaluate). -/
def strStartsWith (s p : String) : Bool := p.data.isPrefixOf s.data

/-- Key lookup in a JSON object (`json.contains` / `json[key]`);
`none` on a non-object or a missing key. -/
def Json.find : Json → String → Option Json
  | .obj fields, key => fields.lookup key
  | _, _ => none

/-- `json.value(key, default)` for a string-valued field: the default
when the key is missing, a `type_error` when the json is not an object
or the field is not a string (nlohmann throws in both cases). -/
def Json.valueStr : Json → String → String → Except String String
  | .obj fields, key, dflt =>
    match fields.lookup key with
    | none => .ok dflt
    | some (.str s) => .ok s
    | some _ => .error "type_error.302"
  | _, _, _ => .error "type_error.306"

/-- `json.value(key, default)` for an arithmetic field
(`double`/`int`/`uint64_t` targets share nlohmann's arithmetic
conversion, which also accepts booleans). -/
def Json.valueNum : Json → String → ℚ → Except String ℚ
  | .obj fields, key, dflt =>
    match fields.lookup key with
    | none => .ok dflt
    | some (.num q) => .ok q
    | some (.bool b) => .ok (if b then 1 else 0)
    | some _ => .error "type_error.302"
  | _, _, _ => .error "type_error.306"

end Tracker

namespace Tracker.JsonCodec

/-! ## JsonCodec (src/core/JsonCodec.cpp) -/

/-- `JsonCodec::locationToJson`. -/
def locationToJson (location : Location) : Json :=
  .obj [("lat", .num location.lat), ("lon", .num location.lon),
        ("alt", .num location.alt), ("acc", .num location.accuracy)]

/-- `JsonCodec::jsonToLocation`. -/
def jsonToLocation (json : Json) : Except String Location := do
  let lat ← json.valueNum "lat" 0
  let lon ← json.valueNum "lon" 0
  let alt ← json.valueNum "alt" 0
  let accuracy ← json.valueNum "acc" 0
  pure { lat, lon, alt, accuracy }

/-- `JsonCodec::batteryToJson`. Note the source truncates the
percentage: `j["pct"] = static_cast<int>(battery.percentage)`. -/
def batteryToJson (battery : BatteryInfo) : Json :=
  .obj [("pct", .num (truncQ battery.percentage : ℤ)),
        ("voltage", .num battery.voltage)]

/-- `JsonCodec::jsonToBattery`. -/
def jsonToBattery (json : Json) : Except String BatteryInfo := do
  let percentage ← json.valueNum "pct" 100
  let voltage ← json.valueNum "voltage" 4
  pure { percentage, voltage }

/-- `JsonCodec::networkToJson`. -/
def networkToJson (network : NetworkInfo) : Json :=
  .obj [("rssi", .num (network.rssi : ℚ)), ("rat", .str network.rat)]

/-- `JsonCodec::jsonToNetwork` (`rssi` read with `value<int>`, which
truncates a float json number). -/
def jsonToNetwork (json : Json) : Except String NetworkInfo := do
  let rssi ← json.valueNum "rssi" (-70)
  let rat ← json.valueStr "rat" "LTE"
  pure { rssi := truncQ rssi, rat }

/-- One `extras` entry on the serialize side: an empty string value is
written as JSON null, any other value as a JSON string. -/
def extraToJson (kv : String × String) : String × Json :=
  (kv.1, if kv.2.isEmpty then Json.null else .str kv.2)

/-- `JsonCodec::eventToJson`: assemble the event object. `extras` is
included only when non-empty. -/
def eventToJson (event : Event) : Json :=
  .obj ([("deviceId", .str event.deviceId),
         ("ts", .str event.timestamp),
         ("eventType", .str (eventTypeToString event.eventType)),
         ("seq", .num (event.sequence : ℚ)),
         ("loc", locationToJson event.location),
         ("speedKph", .num event.speedKph),
         ("heading", .num event.heading),
         ("battery", batteryToJson event.battery),
         ("network", networkToJson event.network)] ++
        (if event.extras.isEmpty then []
         else [("extras", .obj (event.extras.map extraToJson))]))

/-- `value.dump()` used for non-null, non-string extras values in
`jsonToEvent`. (Never reached on codec output, whose extras values are
only null or strings; float formatting is approximated by rational
display, noted here because no claim touches it.) -/
def dumpJson : Json → String
  | .null => "null"
  | .bool b => if b then "true" else "false"
  | .num q => if q.den = 1 then toString q.num else toString q
  | .str s => "\"" ++ s ++ "\""
  | .arr elems => "[" ++ String.intercalate "," (elems.attach.map fun e => dumpJson e.1) ++ "]"
  | .obj fields => "\x7b" ++ String.intercalate ","
      (fields.attach.map fun f => "\"" ++ f.1.1 ++ "\":" ++ dumpJson f.1.2) ++ "\x7d"
termination_by j => sizeOf j
decreasing_by
  · have h := List.sizeOf_lt_of_mem e.2
    simp only [Json.arr.sizeOf_spec]
    omega
  · have h := List.sizeOf_lt_of_mem f.2
    obtain ⟨⟨k, v⟩, hm⟩ := f
    simp only [Prod.mk.sizeOf_spec] at h
    simp only [Json.obj.sizeOf_spec]
    omega

/-- One `extras` entry on the deserialize side (the `items()` loop of
`jsonToEvent`): null becomes the empty string, a string stays itself,
anything else is `dump`ed. -/
def extraFromJson (kv : String × Json) : String × String :=
  (kv.1, match kv.2 with
         | .null => ""
         | .str s => s
         | other => dumpJson other)

/-- `JsonCodec::jsonToEvent`: read each field with `value`-style
defaults; sub-objects are parsed only when present; `extras` only when
present and an object. Exceptions become `Except.error`. -/
def jsonToEvent (json : Json) : Except String Event := do
  let deviceId ← json.valueStr "deviceId" ""
  let timestamp ← json.valueStr "ts" ""
  let eventTypeStr ← json.valueStr "eventType" "heartbeat"
  let seq ← json.valueNum "seq" 0
  let location ← match json.find "loc" with
    | some l => jsonToLocation l
    | none => pure {}
  let speedKph ← json.valueNum "speedKph" 0
  let heading ← json.valueNum "heading" 0
  let battery ← match json.find "battery" with
    | some b => jsonToBattery b
    | none => pure {}
  let network ← match json.find "network" with
    | some n => jsonToNetwork n
    | none => pure {}
  let extras := match json.find "extras" with
    | some (.obj fields) => fields.map extraFromJson
    | _ => []
  pure { deviceId, timestamp, eventType := stringToEventType eventTypeStr,
         sequence := (truncQ seq).toNat, location, speedKph, heading,
         battery, network, extras }

end Tracker.JsonCodec

namespace Tracker.DeviceStateMachine

/-! ## DeviceStateMachine (src/core/domain/DeviceStateMachine.cpp)

The event bus publish in `emitTrackerEvent` is modelled by collecting
the emitted event types in a list; the clock only stamps timestamps and
plays no role in the transitions modelled here. -/

/-- `DeviceState` enum. -/
inductive DeviceState where
  | Idle
  | Driving
  | Parked
  | LowBattery
  | Offline
deriving DecidableEq, Repr

/-- `DeviceEvent` enum. -/
inductive DeviceEvent where
  | IgnitionOn
  | IgnitionOff
  | MotionDetected
  | MotionStopped
  | BatteryLow
  | BatteryNormal
  | ConnectionLost
  | ConnectionRestored
  | ParkingTimerExpired
deriving DecidableEq, Repr

/-- `static constexpr double LOW_BATTERY_THRESHOLD = 15.0` from
DeviceStateMachine.hpp. -/
def LOW_BATTERY_THRESHOLD : ℚ := 15

/-- The state-machine fields of the `DeviceStateMachine` class
(member initializers as defaults; the parking-timer time point is
omitted, it feeds only `isParkingTimerExpired`). -/
structure DSM where
  currentState : DeviceState := .Idle
  ignitionOn : Bool := false
  inMotion : Bool := false
  connected : Bool := true
  batteryPercentage : ℚ := 100
deriving DecidableEq, Repr

/-- The transition table inside `processEvent`: the `newState` computed
from the current state and the device event. -/
def nextState (m : DSM) (event : DeviceEvent) : DeviceState :=
  match m.currentState with
  | .Idle =>
    if event = .IgnitionOn then .Driving
    else if event = .BatteryLow then .LowBattery
    else if event = .ConnectionLost then .Offline
    else m.currentState
  | .Driving =>
    if event = .IgnitionOff ∨ event = .MotionStopped then .Parked
    else if event = .BatteryLow then .LowBattery
    else if event = .ConnectionLost then .Offline
    else m.currentState
  | .Parked =>
    if event = .IgnitionOn ∨ event = .MotionDetected then .Driving
    else if event = .ParkingTimerExpired then .Idle
    else if event = .BatteryLow then .LowBattery
    else if event = .ConnectionLost then .Offline
    else m.currentState
  | .LowBattery =>
    if event = .BatteryNormal then (if m.ignitionOn then .Driving else .Idle)
    else if event = .ConnectionLost then .Offline
    else m.currentState
  | .Offline =>
    if event = .ConnectionRestored then
      if m.batteryPercentage < LOW_BATTERY_THRESHOLD then .LowBattery
      else if m.ignitionOn ∧ m.inMotion then .Driving
      else if m.ignitionOn ∨ m.inMotion then .Parked
      else .Idle
    else m.currentState

/-- The event emission in `transitionTo` (called only when the state
changed): zero or one tracker events per transition. -/
def transitionEmission (oldState : DeviceState) (newState : DeviceState)
    (ignitionOn : Bool) : List EventType :=
  match newState with
  | .Driving =>
    if oldState ≠ .Driving then
      [if ignitionOn then .IgnitionOn else .MotionStart] else []
  | .Parked =>
    if oldState = .Driving then
      [if ignitionOn then .MotionStop else .IgnitionOff] else []
  | .Idle => if oldState ≠ .Idle then [.MotionStop] else []
  | .LowBattery => [.LowBattery]
  | .Offline => []

/-- `DeviceStateMachine::processEvent`: compute the new state and, when
it differs, run `transitionTo` (state write + emission). Returns the new
machine and the list of emitted tracker event types. -/
def processEvent (m : DSM) (event : DeviceEvent) : DSM × List EventType :=
  let newState := nextState m event
  if newState ≠ m.currentState then
    ({ m with currentState := newState },
     transitionEmission m.currentState newState m.ignitionOn)
  else (m, [])

/-- `DeviceStateMachine::setIgnition` (the C++ parameter is named `on`,
a reserved word here). -/
def setIgnition (m : DSM) (isOn : Bool) : DSM × List EventType :=
  processEvent { m with ignitionOn := isOn }
    (if isOn then .IgnitionOn else .IgnitionOff)

/-- `DeviceStateMachine::setMotion`. -/
def setMotion (m : DSM) (inMotion : Bool) : DSM × List EventType :=
  processEvent { m with inMotion := inMotion }
    (if inMotion then .MotionDetected else .MotionStopped)

/-- `DeviceStateMachine::setBatteryLevel`: edge detection against
`LOW_BATTERY_THRESHOLD` around the assignment, then at most one
`processEvent`. -/
def setBatteryLevel (m : DSM) (percentage : ℚ) : DSM × List EventType :=
  let wasLow := m.batteryPercentage < LOW_BATTERY_THRESHOLD
  let m2 := { m with batteryPercentage := percentage }
  let isLow := percentage < LOW_BATTERY_THRESHOLD
  if ¬wasLow ∧ isLow then processEvent m2 .BatteryLow
  else if wasLow ∧ ¬isLow then processEvent m2 .BatteryNormal
  else (m2, [])

/-- `DeviceStateMachine::emitTrackerEvent` builds the published event:
only `eventType`, `timestamp` and `extras` are assigned, every other
field (in particular `sequence`) keeps the `Event` default. -/
def emitTrackerEvent (eventType : EventType) (timestamp : String)
    (extras : List (String × String)) : Event :=
  { eventType, timestamp, extras }

end Tracker.DeviceStateMachine

namespace Tracker.TelemetryPipeline

/-! ## TelemetryPipeline (src/core/domain/TelemetryPipeline.cpp) -/

/-- `struct PendingMessage` from TelemetryPipeline.hpp (`nextRetry`
kept abstract as a natural-number instant). -/
structure PendingMessage where
  event : Event
  topic : String
  payload : Json
  attempts : ℤ := 0
  nextRetry : ℕ := 0
deriving Repr

/-- `TelemetryPipeline::buildTopic`. -/
def buildTopic (deviceId : String) : String :=
  "devices/" ++ deviceId ++ "/messages/events/"

/-- The heartbeat event assembled in `TelemetryPipeline::processEvents`
when the heartbeat interval has elapsed: only `eventType` and
`deviceId` are assigned; `sequence` keeps the struct default `0`. -/
def makeHeartbeat (deviceId : String) : Event :=
  { eventType := .Heartbeat, deviceId }

/-- `TelemetryPipeline::sendTelemetry` acting on the retry queue
(`std::queue`, front at the head of the list). Disconnected: encode and
push with `attempts = 0`. Connected but publish rejected: push with
`attempts = 1` and a backoff `nextRetry`. Connected and accepted: the
queue is untouched. There is no capacity check and nothing is dropped. -/
def sendTelemetry (deviceId : String) (queue : List PendingMessage)
    (connected : Bool) (publishOk : Bool) (now backoff1 : ℕ)
    (event : Event) : List PendingMessage :=
  if ¬connected then
    queue ++ [{ event, topic := buildTopic deviceId,
                payload := JsonCodec.eventToJson event, nextRetry := now }]
  else if ¬publishOk then
    queue ++ [{ event, topic := buildTopic deviceId,
                payload := JsonCodec.eventToJson event, attempts := 1,
                nextRetry := now + backoff1 }]
  else queue

/-- Enqueue a list of events through `sendTelemetry` while the
transport is disconnected (each call takes the first branch). -/
def enqueueWhileDisconnected (deviceId : String)
    (queue : List PendingMessage) (now : ℕ) :
    List Event → List PendingMessage
  | [] => queue
  | e :: rest =>
    enqueueWhileDisconnected deviceId
      (sendTelemetry deviceId queue false false now 0 e) now rest

end Tracker.TelemetryPipeline

namespace Tracker.Simulator

/-! ## Simulator (src/core/Simulator.cpp) -/

/-- The telemetry snapshot fields of the `Simulator` class that
`createBaseEvent` reads, plus the sequence counter
(`uint64_t sequenceNumber_ = 0`). The clock is modelled by carrying the
ISO-8601 string it would return. -/
structure SimulatorSt where
  deviceId : String := "SIM-001"
  timestamp : String := ""
  currentLocation : Location := {}
  currentSpeed : ℚ := 0
  currentHeading : ℚ := 0
  battery : BatteryInfo := {}
  networkInfo : NetworkInfo := {}
  sequenceNumber : ℕ := 0
deriving Repr

/-- `Simulator::createBaseEvent`: populate the event from the current
snapshot with `event.sequence = ++sequenceNumber_` (increment, then
assign). Returns the event and the simulator with the bumped counter. -/
def createBaseEvent (sim : SimulatorSt) (type : EventType) :
    Event × SimulatorSt :=
  let seq := sim.sequenceNumber + 1
  ({ deviceId := sim.deviceId, timestamp := sim.timestamp,
     eventType := type, sequence := seq, location := sim.currentLocation,
     speedKph := sim.currentSpeed, heading := sim.currentHeading,
     battery := sim.battery, network := sim.networkInfo },
   { sim with sequenceNumber := seq })

/-- A run of successive `createBaseEvent` calls (every event-emitting
path in Simulator.cpp - tick heartbeats, state-machine emissions, event
spikes - creates its event exactly this way). -/
def createEvents (sim : SimulatorSt) : List EventType → List Event
  | [] => []
  | t :: rest =>
    let (e, sim2) := createBaseEvent sim t
    e :: createEvents sim2 rest

/-- `MAX_RECONNECT_ATTEMPTS` from Simulator.hpp. -/
def MAX_RECONNECT_ATTEMPTS : ℕ := 10

/-- The backoff delay computed in `Simulator::attemptReconnection`:
`std::min(60, static_cast<int>(std::pow(2, reconnectAttempts_)))`
seconds (`pow` and the cast are exact for every attempt count the
counter reaches, which claim C7 bounds by 10). -/
def backoffDelay (attempts : ℕ) : ℕ := min 60 (2 ^ attempts)

/-- The reconnection fields of the `Simulator` class, plus a count of
`connectToIoTHub` calls made by the reconnection loop. -/
structure ReconnSt where
  reconnectAttempts : ℕ := 0
  shouldReconnect : Bool := true
  connectCalls : ℕ := 0
deriving Repr

/-- `Simulator::attemptReconnection`: when the backoff delay has
elapsed (abstracted as the boolean `elapsedEnough`, the comparison of
`now - lastReconnectAttempt_` against `backoffDelay`), either make one
more `connectToIoTHub` attempt (when below `MAX_RECONNECT_ATTEMPTS`) or
clear `shouldReconnect_`. -/
def attemptReconnection (s : ReconnSt) (elapsedEnough : Bool) : ReconnSt :=
  if elapsedEnough then
    if s.reconnectAttempts < MAX_RECONNECT_ATTEMPTS then
      { s with reconnectAttempts := s.reconnectAttempts + 1,
               connectCalls := s.connectCalls + 1 }
    else { s with shouldReconnect := false }
  else s

/-- Iterated reconnection ticks within one outage (the counter is reset
only by a successful connection, which ends the outage). -/
def reconnectRun (s : ReconnSt) (ticks : List Bool) : ReconnSt :=
  ticks.foldl attemptReconnection s

end Tracker.Simulator

namespace Tracker.DpsConnectionManager

/-! ## DpsConnectionManager (src/core/DpsConnectionManager.cpp) -/

/-- `DpsConnectionManager::buildDeviceCommandTopic`. -/
def buildDeviceCommandTopic (deviceId : String) : String :=
  "devices/" ++ deviceId ++ "/messages/devicebound/#"

/-- `DpsConnectionManager::buildDeviceTelemetryTopic`. -/
def buildDeviceTelemetryTopic (deviceId : String) : String :=
  "devices/" ++ deviceId ++ "/messages/events/"

/-- `DpsConnectionManager::subscribe`: rejected unless connected
(`none`); otherwise the topic actually passed to
`hubClient_->subscribe` - the argument itself when it begins with
"devices/" (`topic.find("devices/") == 0`), else the device command
topic, the argument discarded. -/
def subscribe (connected : Bool) (deviceId topic : String) :
    Option String :=
  if ¬connected then none
  else if strStartsWith topic "devices/" then some topic
  else some (buildDeviceCommandTopic deviceId)

end Tracker.DpsConnectionManager

namespace Tracker.TwinHandler

/-! ## TwinHandler (src/core/TwinHandler.cpp) -/

/-- `TwinStatus` enum from TwinHandler.hpp. -/
inductive TwinStatus where
  | Success
  | JsonParseError
  | FileWriteError
  | MqttError
  | InvalidResponse
deriving DecidableEq, Repr

/-- `desired[key].get<int>()`: an integer from a json number (the cast
truncates a float), a `type_error` otherwise. -/
def getInt (j : Json) : Except String ℤ :=
  match j with
  | .num q => .ok (truncQ q)
  | .bool b => .ok (if b then 1 else 0)
  | _ => .error "type_error.302"

/-- The version extraction at the top of
`TwinHandler::applyDesiredAndWriteFile`: `$version` first, then
`config.config_version`, else the literal "unknown". A `get<int>`
throw propagates. -/
def extractConfigVersion (desired : Json) : Except String String :=
  match desired.find "$version" with
  | some v => do pure (toString (← getInt v))
  | none =>
    match desired.find "config" with
    | some config =>
      match config.find "config_version" with
      | some v => do pure (toString (← getInt v))
      | none => .ok "unknown"
    | none => .ok "unknown"

/-- The observable outcome of `TwinHandler::applyDesiredAndWriteFile`:
the result fields the claims read plus the class member
`currentConfigVersion_` after the call (what `getConfigVersion`
then returns). -/
structure ApplyOutcome where
  status : TwinStatus
  configVersion : String
  hasChanges : Bool
  currentConfigVersion : String
deriving DecidableEq, Repr

/-- `TwinHandler::applyDesiredAndWriteFile` given the member
`currentConfigVersion_ = cur` and a file system whose
`std::ofstream` open/write succeeds iff `writeOk`: extract the version;
update `currentConfigVersion_` when it differs (this happens BEFORE the
file write); then attempt the write, failing with `FileWriteError` but
leaving the already-updated member in place. A `get<int>` type error is
caught as `JsonParseError` before any update. -/
def applyDesiredAndWriteFile (cur : String) (desired : Json)
    (writeOk : Bool) : ApplyOutcome :=
  match extractConfigVersion desired with
  | .error _ =>
    { status := .JsonParseError, configVersion := "", hasChanges := false,
      currentConfigVersion := cur }
  | .ok version =>
    let hasChanges := cur ≠ version
    let newCur := if cur ≠ version then version else cur
    if ¬writeOk then
      { status := .FileWriteError, configVersion := version, hasChanges,
        currentConfigVersion := newCur }
    else
      { status := .Success, configVersion := version, hasChanges,
        currentConfigVersion := newCur }

end Tracker.TwinHandler

namespace Tracker.DpsProvisioning

/-! ## DpsProvisioning (src/core/DpsProvisioning.cpp)

The MQTT client collaborator is modelled by booleans for the outcomes
of its calls (`connectWithTls` initiation, registration `publish`) and
by an explicit record of whether `disconnect` has been called; the
completion callback is modelled by accumulating the results it is
invoked with. -/

/-- The `State` enum of the DpsProvisioning class. -/
inductive PState where
  | Idle
  | ConnectingToDps
  | SendingRegistration
  | WaitingForAssignment
  | Completed
  | Failed
deriving DecidableEq, Repr

/-- `struct ProvisioningResult` (DpsProvisioning.hpp). -/
structure ProvisioningResult where
  success : Bool := false
  assignedHub : String := ""
  deviceId : String := ""
  errorMessage : String := ""
deriving DecidableEq, Repr

/-- The observable state of a `DpsProvisioning` instance:
`state_`, `operationId_`, whether the transport is still open, and the
arguments of every completion-callback invocation so far (in order). -/
structure DpsSt where
  state : PState := .Idle
  operationId : String := ""
  transportOpen : Bool := true
  callbackLog : List ProvisioningResult := []
deriving DecidableEq, Repr

/-- `DpsProvisioning::extractJsonValue` helper: the suffix of `hay`
after the first occurrence of `needle` (C++ `find` + offset), or `none`
when absent. -/
def dropAfterFirst (needle : List Char) : List Char → Option (List Char)
  | [] => if needle = [] then some [] else none
  | c :: rest =>
    if needle.isPrefixOf (c :: rest) then some ((c :: rest).drop needle.length)
    else dropAfterFirst needle rest

/-- `DpsProvisioning::extractJsonValue` helper: the characters before
the next double quote (C++ `find("\"", start)` + `substr`), or `none`
when no quote follows (`npos`). -/
def takeUntilQuote : List Char → Option (List Char)
  | [] => none
  | c :: rest =>
    if c = '"' then some []
    else (takeUntilQuote rest).map (c :: ·)

/-- `DpsProvisioning::extractJsonValue`: locate `"key":"` and return
the text up to the next quote; the empty string when the pattern or the
closing quote is missing. -/
def extractJsonValue (json key : String) : String :=
  let searchKey := "\"" ++ key ++ "\":\""
  match dropAfterFirst searchKey.data json.data with
  | none => ""
  | some rest =>
    match takeUntilQuote rest with
    | none => ""
    | some chars => String.mk chars

/-- `DpsProvisioning::completeProvisioning`: set the terminal state,
disconnect the transport, invoke the callback once with the result. -/
def completeProvisioning (s : DpsSt) (result : ProvisioningResult) : DpsSt :=
  { s with state := if result.success then .Completed else .Failed,
           transportOpen := false,
           callbackLog := s.callbackLog ++ [result] }

/-- `DpsProvisioning::cancel`: if not idle and not already terminal,
disconnect the transport and mark `Failed` - without invoking the
completion callback. -/
def cancel (s : DpsSt) : DpsSt :=
  if s.state ≠ .Idle ∧ s.state ≠ .Completed ∧ s.state ≠ .Failed then
    { s with transportOpen := false, state := .Failed }
  else s

/-- `DpsProvisioning::handleAssignmentResponse`. -/
def handleAssignmentResponse (s : DpsSt) (payload : String) : DpsSt :=
  let status := extractJsonValue payload "status"
  if status = "assigned" then
    let assignedHub := extractJsonValue payload "assignedHub"
    let deviceId := extractJsonValue payload "deviceId"
    if assignedHub ≠ "" ∧ deviceId ≠ "" then
      completeProvisioning s
        { success := true, assignedHub, deviceId }
    else
      completeProvisioning s
        { errorMessage := "Assignment response missing required fields" }
  else if status = "assigning" then s
  else
    completeProvisioning s
      { errorMessage := "Assignment failed with status: " ++ status }

/-- `DpsProvisioning::handleRegistrationResponse`. -/
def handleRegistrationResponse (s : DpsSt) (payload : String) : DpsSt :=
  let status := extractJsonValue payload "status"
  if status = "assigning" then
    { s with operationId := extractJsonValue payload "operationId",
             state := .WaitingForAssignment }
  else if status = "assigned" then handleAssignmentResponse s payload
  else
    completeProvisioning s
      { errorMessage := "Registration failed with status: " ++ status }

/-- `DpsProvisioning::onDpsConnected` (guarded on
`state_ == ConnectingToDps`); `publishOk` is the outcome of publishing
the registration request. -/
def onDpsConnected (s : DpsSt) (connected : Bool) (reason : String)
    (publishOk : Bool) : DpsSt :=
  if s.state ≠ .ConnectingToDps then s
  else if connected then
    if publishOk then { s with state := .SendingRegistration }
    else completeProvisioning s
      { errorMessage := "Failed to send registration request" }
  else completeProvisioning s
    { errorMessage := "Failed to connect to DPS: " ++ reason }

/-- `DpsProvisioning::onDpsMessage`: messages on the DPS response topic
are handled only in `SendingRegistration` or `WaitingForAssignment`. -/
def onDpsMessage (s : DpsSt) (topic payload : String) : DpsSt :=
  if strStartsWith topic "$dps/registrations/res/" then
    if s.state = .SendingRegistration ∨ s.state = .WaitingForAssignment then
      handleRegistrationResponse s payload
    else s
  else s

/-- The timeout branch of `DpsProvisioning::processEvents`:
`isTimedOut()` is false in `Idle`, `Completed` and `Failed`; `timedOut`
abstracts the deadline comparison. (The polling branch only publishes
a GET and changes none of the modelled state.) -/
def processEventsTimeout (s : DpsSt) (timedOut : Bool) : DpsSt :=
  if timedOut ∧ s.state ≠ .Idle ∧ s.state ≠ .Completed ∧ s.state ≠ .Failed then
    completeProvisioning s { errorMessage := "Provisioning timeout" }
  else s

/-- One external stimulus to a `DpsProvisioning` instance. -/
inductive DpsInput where
  | connected (ok : Bool) (reason : String) (publishOk : Bool)
  | message (topic payload : String)
  | tick (timedOut : Bool)
  | cancel
deriving Repr

/-- Dispatch one stimulus. -/
def step (s : DpsSt) : DpsInput → DpsSt
  | .connected ok reason publishOk => onDpsConnected s ok reason publishOk
  | .message topic payload => onDpsMessage s topic payload
  | .tick timedOut => processEventsTimeout s timedOut
  | .cancel => cancel s

/-- The state right after `startProvisioning`: `state_` is set to
`ConnectingToDps`; when the `connectWithTls` call itself fails,
`completeProvisioning` fires immediately with a failure. -/
def startProvisioning (connectInitOk : Bool) : DpsSt :=
  let s : DpsSt := { state := .ConnectingToDps }
  if connectInitOk then s
  else completeProvisioning s
    { errorMessage := "Failed to initiate connection to DPS" }

/-- A whole provisioning run: `startProvisioning`, then a sequence of
transport callbacks, ticks and cancellations. -/
def run (connectInitOk : Bool) (inputs : List DpsInput) : DpsSt :=
  inputs.foldl step (startProvisioning connectInitOk)

end Tracker.DpsProvisioning

namespace Tracker

/-! ## Helper definitions for the claims -/

/-- The string the `eventType` extraction step of `jsonToEvent`
effectively feeds to `stringToEventType`: the field's string when
present as a string, else the default "heartbeat". -/
def eventTypeField (j : Json) : String :=
  match j.find "eventType" with
  | some (.str s) => s
  | _ => "heartbeat"

/-- A device state machine brought into `Driving` by `setIgnition(true)`
from the initial state (battery at its initial 100). -/
def drivingDSM : DeviceStateMachine.DSM :=
  (DeviceStateMachine.setIgnition {} true).1

/-- A well-formed event whose battery percentage has a fractional part
(19.5%, exactly representable in double precision). -/
def ex5 : Event := { battery := { percentage := mkRat 39 2 } }

/-- What `ex5` becomes after one serialize/deserialize round trip. -/
def ex5dec : Event := { battery := { percentage := 19 } }

/-- The message entry `sendTelemetry` enqueues while disconnected. -/
def queuedMsg (deviceId : String) (now : ℕ) (event : Event) :
    TelemetryPipeline.PendingMessage :=
  { event, topic := TelemetryPipeline.buildTopic deviceId,
    payload := JsonCodec.eventToJson event, nextRetry := now }

/-- An "assigned" DPS registration response payload. -/
def assignedPayload : String :=
  "\x7b\"status\":\"assigned\",\"assignedHub\":\"h1\",\"deviceId\":\"d1\"\x7d"

/-- A successful provisioning run: transport connects, registration is
published, the response assigns hub and device id. -/
def successRun : List DpsProvisioning.DpsInput :=
  [.connected true "" true,
   .message "$dps/registrations/res/200/?$rid=1" assignedPayload]

/-- Completion-callback invariant of a `DpsProvisioning` instance: one
invocation when `Completed`, at most one when `Failed` (zero when the
failure came from `cancel`), none while still in flight. -/
def DpsInv (s : DpsProvisioning.DpsSt) : Prop :=
  (s.state = .Completed → s.callbackLog.length = 1) ∧
  (s.state = .Failed → s.callbackLog.length ≤ 1) ∧
  (s.state ≠ .Completed → s.state ≠ .Failed → s.callbackLog.length = 0)

end Tracker

namespace Tracker

/-! ## Claims -/

/-- Round trip of the nine event-type names. -/
theorem stringToEventType_eventTypeToString (t : EventType) :
    stringToEventType (eventTypeToString t) = t := by
  cases t <;> rfl

/-- **C8.** The claim says serialization writes `eventType` in
kebab-case ("ignition-on", "speed-over-limit"). The source table in
Event.cpp uses snake_case: `IgnitionOn ↦ "ignition_on"`,
`SpeedOverLimit ↦ "speed_over_limit"`. -/
theorem C8_counterexample :
    eventTypeToString .IgnitionOn = "ignition_on" ∧
    eventTypeToString .IgnitionOn ≠ "ignition-on" ∧
    eventTypeToString .SpeedOverLimit = "speed_over_limit" ∧
    eventTypeToString .SpeedOverLimit ≠ "speed-over-limit" := by
  refine ⟨rfl, ?_, rfl, ?_⟩ <;> decide

/-- **C8 (amended).** For every event kind, serialization writes the
`eventType` field as the snake_case string of the kind: "heartbeat",
"ignition_on", "ignition_off", "motion_start", "motion_stop",
"geofence_enter", "geofence_exit", "speed_over_limit", "low_battery". -/
theorem C8_eventType_snake_case :
    (∀ e : Event, (JsonCodec.eventToJson e).find "eventType" =
      some (.str (eventTypeToString e.eventType))) ∧
    eventTypeToString .Heartbeat = "heartbeat" ∧
    eventTypeToString .IgnitionOn = "ignition_on" ∧
    eventTypeToString .IgnitionOff = "ignition_off" ∧
    eventTypeToString .MotionStart = "motion_start" ∧
    eventTypeToString .MotionStop = "motion_stop" ∧
    eventTypeToString .GeofenceEnter = "geofence_enter" ∧
    eventTypeToString .GeofenceExit = "geofence_exit" ∧
    eventTypeToString .SpeedOverLimit = "speed_over_limit" ∧
    eventTypeToString .LowBattery = "low_battery" :=
  ⟨fun _ => rfl, rfl, rfl, rfl, rfl, rfl, rfl, rfl, rfl, rfl⟩

/-- **C9.** In the `Connected` state, `DpsConnectionManager::subscribe`
with a topic that does not begin with "devices/" discards the argument
and subscribes to `devices/<device_id>/messages/devicebound/#`. -/
theorem C9_subscribe_discards_topic (deviceId topic : String)
    (h : strStartsWith topic "devices/" = false) :
    DpsConnectionManager.subscribe true deviceId topic =
      some (DpsConnectionManager.buildDeviceCommandTopic deviceId) := by
  simp [DpsConnectionManager.subscribe, h]

/-- Witness for C9 at the twin response topic. -/
theorem C9_subscribe_discards_topic_witness :
    (strStartsWith "$iothub/twin/res/#" "devices/" = false) ∧
    DpsConnectionManager.subscribe true "d1" "$iothub/twin/res/#" =
      some (DpsConnectionManager.buildDeviceCommandTopic "d1") :=
  ⟨by decide, C9_subscribe_discards_topic "d1" "$iothub/twin/res/#" (by decide)⟩

end Tracker

namespace Tracker

/-- **C4.** The claim puts the low-battery threshold at 20% and expects
`setBatteryLevel(19)` from `Driving` to emit a `LowBattery` event and
latch the `LowBattery` state. The source constant is
`LOW_BATTERY_THRESHOLD = 15.0`, so at 19% nothing happens: no event is
emitted and the machine stays in `Driving`. -/
theorem C4_counterexample :
    drivingDSM.currentState = .Driving ∧
    (DeviceStateMachine.setBatteryLevel drivingDSM 19).2 = [] ∧
    (DeviceStateMachine.setBatteryLevel drivingDSM 19).1.currentState =
      .Driving := by
  refine ⟨rfl, ?_, ?_⟩ <;> decide

/-- **C4 (amended).** The low-battery threshold is
`LOW_BATTERY_THRESHOLD = 15%`: with the machine in `Driving` and the
battery not below the threshold, setting the level to 14% moves the
state to `LowBattery` and emits exactly one `LowBattery` event, and the
emission is edge-triggered - any further `setBatteryLevel` below the
threshold emits nothing. -/
theorem C4_low_battery_latch (m : DeviceStateMachine.DSM)
    (hst : m.currentState = .Driving)
    (hb : ¬(m.batteryPercentage < DeviceStateMachine.LOW_BATTERY_THRESHOLD)) :
    (DeviceStateMachine.setBatteryLevel m 14).2 = [.LowBattery] ∧
    (DeviceStateMachine.setBatteryLevel m 14).1.currentState = .LowBattery ∧
    ∀ p : ℚ, p < DeviceStateMachine.LOW_BATTERY_THRESHOLD →
      (DeviceStateMachine.setBatteryLevel
        (DeviceStateMachine.setBatteryLevel m 14).1 p).2 = [] := by
  obtain ⟨st, ign, mot, conn, bat⟩ := m
  simp only at hst hb
  subst hst
  have h14 : (14 : ℚ) < DeviceStateMachine.LOW_BATTERY_THRESHOLD := by
    norm_num [DeviceStateMachine.LOW_BATTERY_THRESHOLD]
  refine ⟨?_, ?_, fun p hp => ?_⟩
  · simp [DeviceStateMachine.setBatteryLevel, DeviceStateMachine.processEvent,
          DeviceStateMachine.nextState, DeviceStateMachine.transitionEmission,
          hb, h14]
  · simp [DeviceStateMachine.setBatteryLevel, DeviceStateMachine.processEvent,
          DeviceStateMachine.nextState, DeviceStateMachine.transitionEmission,
          hb, h14]
  · simp [DeviceStateMachine.setBatteryLevel, DeviceStateMachine.processEvent,
          DeviceStateMachine.nextState, DeviceStateMachine.transitionEmission,
          hb, h14, hp]

/-- Witness for C4 (amended) at the concrete `Driving` machine. -/
theorem C4_low_battery_latch_witness :
    (DeviceStateMachine.setBatteryLevel drivingDSM 14).2 = [.LowBattery] ∧
    (DeviceStateMachine.setBatteryLevel drivingDSM 14).1.currentState =
      .LowBattery ∧
    (DeviceStateMachine.setBatteryLevel
      (DeviceStateMachine.setBatteryLevel drivingDSM 14).1 13).2 = [] :=
  have h := C4_low_battery_latch drivingDSM (by decide) (by decide)
  ⟨h.1, h.2.1, h.2.2 13 (by norm_num [DeviceStateMachine.LOW_BATTERY_THRESHOLD])⟩

end Tracker

namespace Tracker

/-- Enqueueing while disconnected appends one entry per event at the
back of the queue, in order, dropping nothing (shared by the C2
theorems). -/
theorem enqueueWhileDisconnected_eq (deviceId : String) (now : ℕ) :
    ∀ (events : List Event) (queue : List TelemetryPipeline.PendingMessage),
      TelemetryPipeline.enqueueWhileDisconnected deviceId queue now events =
        queue ++ events.map (queuedMsg deviceId now) := by
  intro events
  induction events with
  | nil => intro queue; simp [TelemetryPipeline.enqueueWhileDisconnected]
  | cons e rest ih =>
    intro queue
    simp only [TelemetryPipeline.enqueueWhileDisconnected,
               TelemetryPipeline.sendTelemetry, List.map_cons]
    rw [ih]
    simp [queuedMsg, List.append_assoc]

/-- **C2.** The claim bounds the retry queue at `Q_MAX = 100` with
drop-oldest. `TelemetryPipeline::retryQueue_` is a plain unbounded
`std::queue`: 101 publishes while disconnected leave 101 entries in the
queue, and the first message enqueued is still at the front. -/
theorem C2_counterexample :
    (TelemetryPipeline.enqueueWhileDisconnected "SIM-001" [] 0
      (List.replicate 101 {})).length = 101 ∧
    ¬((TelemetryPipeline.enqueueWhileDisconnected "SIM-001" [] 0
      (List.replicate 101 {})).length ≤ 100) := by
  rw [enqueueWhileDisconnected_eq]
  simp

/-- **C2 (amended).** The retry queue of the Telemetry Pipeline is an
unbounded FIFO: `sendTelemetry` while disconnected appends the encoded
message at the back, never drops an entry, and preserves arrival order;
the queue size is the initial size plus the number of enqueued events,
with no `Q_MAX` cap. -/
theorem C2_queue_unbounded_fifo :
    ∀ (deviceId : String) (now : ℕ) (events : List Event)
      (queue : List TelemetryPipeline.PendingMessage),
      TelemetryPipeline.enqueueWhileDisconnected deviceId queue now events =
        queue ++ events.map (queuedMsg deviceId now) ∧
      (TelemetryPipeline.enqueueWhileDisconnected deviceId queue now
        events).length = queue.length + events.length := by
  intro deviceId now events queue
  refine ⟨enqueueWhileDisconnected_eq deviceId now events queue, ?_⟩
  rw [enqueueWhileDisconnected_eq]
  simp

/-- **C7.** Reconnect backoff `delay_k = min(1s · 2^k, 60s)` is
monotone in the attempt number, capped at 60 s, and the reconnection
loop makes at most `MAX_RECONNECT_ATTEMPTS = 10` connection attempts in
one outage before clearing `shouldReconnect_`. -/
theorem C7_backoff_monotone_capped_bounded :
    (∀ k k2 : ℕ, k < k2 →
      Simulator.backoffDelay k ≤ Simulator.backoffDelay k2) ∧
    (∀ k : ℕ, Simulator.backoffDelay k ≤ 60) ∧
    (∀ ticks : List Bool,
      (Simulator.reconnectRun {} ticks).connectCalls ≤ 10) := by
  refine ⟨?_, ?_, ?_⟩
  · intro k k2 hk
    exact min_le_min le_rfl (Nat.pow_le_pow_right (by norm_num) hk.le)
  · intro k
    exact min_le_left 60 _
  · have inv : ∀ (ticks : List Bool) (s : Simulator.ReconnSt),
        s.connectCalls ≤ s.reconnectAttempts → s.reconnectAttempts ≤ 10 →
        (Simulator.reconnectRun s ticks).connectCalls ≤
          (Simulator.reconnectRun s ticks).reconnectAttempts ∧
        (Simulator.reconnectRun s ticks).reconnectAttempts ≤ 10 := by
      intro ticks
      induction ticks with
      | nil => intro s h1 h2; exact ⟨h1, h2⟩
      | cons t rest ih =>
        intro s h1 h2
        simp only [Simulator.reconnectRun, List.foldl_cons]
        unfold Simulator.attemptReconnection
        split
        · split
          next hlt =>
            have h10 : s.reconnectAttempts < 10 := by
              simpa [Simulator.MAX_RECONNECT_ATTEMPTS] using hlt
            exact ih _ (by simpa using h1) (by simp; omega)
          next hge => exact ih _ (by simpa using h1) (by simpa using h2)
        · exact ih _ h1 h2
    intro ticks
    have h := inv ticks {} (by simp) (by simp)
    omega

/-- Witness for C7 at concrete attempt counts and a 20-tick outage. -/
theorem C7_backoff_witness :
    Simulator.backoffDelay 3 ≤ Simulator.backoffDelay 7 ∧
    Simulator.backoffDelay 12 ≤ 60 ∧
    (Simulator.reconnectRun {} (List.replicate 20 true)).connectCalls ≤ 10 :=
  ⟨C7_backoff_monotone_capped_bounded.1 3 7 (by norm_num),
   C7_backoff_monotone_capped_bounded.2.1 12,
   C7_backoff_monotone_capped_bounded.2.2 (List.replicate 20 true)⟩

end Tracker

namespace Tracker

/-- **C6.** The claim says a `FileWriteError` during a desired-property
apply leaves `getConfigVersion()` unchanged. In the source the member
`currentConfigVersion_` is updated before the file write is attempted:
with previous version "1" and desired `$version = 7`, a failed write
returns `FileWriteError` yet `getConfigVersion()` now returns "7". -/
theorem C6_counterexample :
    TwinHandler.applyDesiredAndWriteFile "1"
      (.obj [("$version", .num 7)]) false =
      { status := .FileWriteError, configVersion := "7",
        hasChanges := true, currentConfigVersion := "7" } ∧
    ("7" : String) ≠ "1" := by
  constructor
  · rfl
  · decide

/-- **C6 (amended).** If writing the applied configuration to storage
fails during a desired-property apply (`FileWriteError`) and the
desired payload carries a version different from the current one, the
applied version has already been updated before the failure:
`getConfigVersion()` afterwards returns the version extracted from the
failed apply, not the previous value. -/
theorem C6_version_updated_before_write (cur v : String) (desired : Json)
    (hv : TwinHandler.extractConfigVersion desired = .ok v) (hne : v ≠ cur) :
    TwinHandler.applyDesiredAndWriteFile cur desired false =
      { status := .FileWriteError, configVersion := v,
        hasChanges := true, currentConfigVersion := v } := by
  unfold TwinHandler.applyDesiredAndWriteFile
  rw [hv]
  simp [Ne.symm hne]

/-- Witness for C6 (amended) at `$version = 7` over current "1". -/
theorem C6_version_updated_before_write_witness :
    TwinHandler.extractConfigVersion (.obj [("$version", .num 7)]) =
      .ok "7" ∧
    TwinHandler.applyDesiredAndWriteFile "1"
      (.obj [("$version", .num 7)]) false =
      { status := .FileWriteError, configVersion := "7",
        hasChanges := true, currentConfigVersion := "7" } :=
  ⟨rfl, C6_version_updated_before_write "1" "7" (.obj [("$version", .num 7)])
    rfl (by decide)⟩

end Tracker

namespace Tracker

/-- One step of the provisioning protocol preserves the
completion-callback invariant. -/
theorem dpsStep_inv (s : DpsProvisioning.DpsSt) (i : DpsProvisioning.DpsInput)
    (h : DpsInv s) : DpsInv (DpsProvisioning.step s i) := by
  obtain ⟨st, op, topen, log⟩ := s
  obtain ⟨h1, h2, h3⟩ := h
  simp only at h1 h2 h3
  cases i <;> cases st <;>
    (try simp_all [DpsProvisioning.step, DpsProvisioning.onDpsConnected,
      DpsProvisioning.onDpsMessage, DpsProvisioning.handleRegistrationResponse,
      DpsProvisioning.handleAssignmentResponse,
      DpsProvisioning.processEventsTimeout, DpsProvisioning.cancel,
      DpsProvisioning.completeProvisioning, DpsInv]) <;>
    (try split_ifs) <;> (try simp_all)

end Tracker

namespace Tracker

/-- **C3.** The claim says the completion callback fires exactly once
per provisioning run, and in particular that `cancel()` while in flight
invokes it once with a failure. `DpsProvisioning::cancel` closes the
transport and sets `state_ = Failed` but never calls the callback:
after `startProvisioning` (connection initiated) followed by `cancel`,
the callback has fired zero times, the state is terminal `Failed`, and
it still has fired zero times after further stimuli. -/
theorem C3_counterexample :
    (DpsProvisioning.run true [.cancel]).callbackLog = [] ∧
    (DpsProvisioning.run true [.cancel]).state = .Failed ∧
    (DpsProvisioning.run true [.cancel]).transportOpen = false ∧
    (DpsProvisioning.run true
      [.cancel, .tick true, .connected true "" true,
       .message "$dps/registrations/res/200/?$rid=1"
         assignedPayload]).callbackLog = [] := by
  refine ⟨rfl, rfl, rfl, rfl⟩

/-- **C3 (amended).** Over any provisioning run the completion callback
is invoked at most once, and exactly once whenever the run reaches
`Completed` (every completing path goes through `completeProvisioning`,
which invokes it and closes the transport); `cancel()` while in flight
closes the transport and moves to `Failed` without invoking the
callback. -/
theorem C3_callback_at_most_once (connectInitOk : Bool)
    (inputs : List DpsProvisioning.DpsInput) :
    (DpsProvisioning.run connectInitOk inputs).callbackLog.length ≤ 1 ∧
    ((DpsProvisioning.run connectInitOk inputs).state = .Completed →
      (DpsProvisioning.run connectInitOk inputs).callbackLog.length = 1) := by
  have hInit : DpsInv (DpsProvisioning.startProvisioning connectInitOk) := by
    cases connectInitOk <;>
      simp [DpsProvisioning.startProvisioning,
            DpsProvisioning.completeProvisioning, DpsInv]
  have hRun : ∀ (l : List DpsProvisioning.DpsInput)
      (s : DpsProvisioning.DpsSt), DpsInv s → DpsInv (l.foldl DpsProvisioning.step s) := by
    intro l
    induction l with
    | nil => intro s hs; exact hs
    | cons x rest ih =>
      intro s hs
      exact ih _ (dpsStep_inv s x hs)
  have h := hRun inputs _ hInit
  obtain ⟨h1, h2, h3⟩ := h
  refine ⟨?_, h1⟩
  by_cases hc : (DpsProvisioning.run connectInitOk inputs).state = .Completed
  · exact le_of_eq (h1 hc)
  · by_cases hf : (DpsProvisioning.run connectInitOk inputs).state = .Failed
    · exact h2 hf
    · exact le_of_eq (h3 hc hf) |>.trans (by norm_num)

/-- Witness for C3 (amended) on a run that completes successfully. -/
theorem C3_callback_at_most_once_witness :
    (DpsProvisioning.run true successRun).callbackLog.length ≤ 1 ∧
    (DpsProvisioning.run true successRun).callbackLog.length = 1 :=
  ⟨(C3_callback_at_most_once true successRun).1,
   (C3_callback_at_most_once true successRun).2 rfl⟩

end Tracker

namespace Tracker

/-- Sequences of consecutive `createBaseEvent` calls: increment-then-
assign yields `counter+1, counter+2, ...` (shared by the C1 theorems). -/
theorem createEvents_sequences :
    ∀ (types : List EventType) (sim : Simulator.SimulatorSt),
      (Simulator.createEvents sim types).map Event.sequence =
        List.range' (sim.sequenceNumber + 1) types.length := by
  intro types
  induction types with
  | nil => intro sim; simp [Simulator.createEvents]
  | cons t rest ih =>
    intro sim
    simp only [Simulator.createEvents, Simulator.createBaseEvent,
               List.map_cons, List.length_cons, List.range'_succ]
    exact congrArg _ (ih _)

/-- **C1.** The claim says every telemetry event emitted by the core -
including the events the Telemetry Pipeline assembles from domain
events and heartbeats - carries sequence values 1, 2, 3, ... . The
pipeline path never assigns `sequence`: the heartbeat built in
`TelemetryPipeline::processEvents` carries the struct default 0, which
is outside the claimed gapless chain starting at 1. -/
theorem C1_counterexample :
    (TelemetryPipeline.makeHeartbeat "SIM-001").sequence = 0 ∧
    (TelemetryPipeline.makeHeartbeat "SIM-001").sequence ≠ 1 ∧
    (DeviceStateMachine.emitTrackerEvent .IgnitionOn "" []).sequence = 0 := by
  refine ⟨rfl, ?_, rfl⟩
  decide

/-- **C1 (amended).** Events created through `Simulator::createBaseEvent`
carry sequence numbers 1, 2, 3, ... - strictly increasing, gapless,
starting at 1 (increment-then-assign). Events assembled by the
Telemetry Pipeline path (domain events published by the device state
machine and the pipeline heartbeats) are never given a sequence number
and carry the default 0. -/
theorem C1_sequence_numbering :
    (∀ (sim : Simulator.SimulatorSt), sim.sequenceNumber = 0 →
      ∀ (types : List EventType),
        (Simulator.createEvents sim types).map Event.sequence =
          List.range' 1 types.length) ∧
    (∀ d : String, (TelemetryPipeline.makeHeartbeat d).sequence = 0) ∧
    (∀ (t : EventType) (ts : String) (ex : List (String × String)),
      (DeviceStateMachine.emitTrackerEvent t ts ex).sequence = 0) := by
  refine ⟨?_, fun _ => rfl, fun _ _ _ => rfl⟩
  intro sim h0 types
  rw [createEvents_sequences types sim, h0]

/-- Witness for C1 (amended) on a three-event run from a fresh
simulator. -/
theorem C1_sequence_numbering_witness :
    (Simulator.createEvents {} [.Heartbeat, .IgnitionOn, .LowBattery]).map
      Event.sequence = List.range' 1 3 ∧
    (TelemetryPipeline.makeHeartbeat "SIM-001").sequence = 0 :=
  ⟨C1_sequence_numbering.1 {} rfl [.Heartbeat, .IgnitionOn, .LowBattery],
   C1_sequence_numbering.2.1 "SIM-001"⟩

end Tracker

namespace Tracker

/-- Inversion for a successful `Except` bind. -/
theorem except_bind_ok {α β γ : Type} (m : Except γ α) (f : α → Except γ β)
    (b : β) (h : (m >>= f) = .ok b) : ∃ a, m = .ok a ∧ f a = .ok b := by
  cases m with
  | error err => simp [Bind.bind, Except.bind] at h
  | ok a => exact ⟨a, rfl, by simpa [Bind.bind, Except.bind] using h⟩

/-- A string outside the nine recognized names maps to
`EventType::Heartbeat` (the `unordered_map::find` miss branch of
`stringToEventType`). -/
theorem stringToEventType_default (s : String) (hs : s ∉ eventTypeNames) :
    stringToEventType s = .Heartbeat := by
  have h1 : (s == "heartbeat") = false := by
    refine beq_eq_false_iff_ne.mpr (fun h => hs ?_); rw [h]; decide
  have h2 : (s == "ignition_on") = false := by
    refine beq_eq_false_iff_ne.mpr (fun h => hs ?_); rw [h]; decide
  have h3 : (s == "ignition_off") = false := by
    refine beq_eq_false_iff_ne.mpr (fun h => hs ?_); rw [h]; decide
  have h4 : (s == "motion_start") = false := by
    refine beq_eq_false_iff_ne.mpr (fun h => hs ?_); rw [h]; decide
  have h5 : (s == "motion_stop") = false := by
    refine beq_eq_false_iff_ne.mpr (fun h => hs ?_); rw [h]; decide
  have h6 : (s == "geofence_enter") = false := by
    refine beq_eq_false_iff_ne.mpr (fun h => hs ?_); rw [h]; decide
  have h7 : (s == "geofence_exit") = false := by
    refine beq_eq_false_iff_ne.mpr (fun h => hs ?_); rw [h]; decide
  have h8 : (s == "speed_over_limit") = false := by
    refine beq_eq_false_iff_ne.mpr (fun h => hs ?_); rw [h]; decide
  have h9 : (s == "low_battery") = false := by
    refine beq_eq_false_iff_ne.mpr (fun h => hs ?_); rw [h]; decide
  simp [stringToEventType, stringMap, List.lookup, h1, h2, h3, h4, h5, h6,
        h7, h8, h9]

/-- The string the `eventType` read of `jsonToEvent` produces is
exactly `eventTypeField`. -/
theorem valueStr_eventType_eq (j : Json) (s : String)
    (h : j.valueStr "eventType" "heartbeat" = .ok s) :
    eventTypeField j = s := by
  cases j with
  | obj fields =>
    simp only [Json.valueStr] at h
    simp only [eventTypeField, Json.find]
    cases hL : fields.lookup "eventType" with
    | none =>
      rw [hL] at h
      simp only [Except.ok.injEq] at h
      simp [h]
    | some v =>
      rw [hL] at h
      cases v <;> simp_all
  | null => simp [Json.valueStr] at h
  | bool b => simp [Json.valueStr] at h
  | num q => simp [Json.valueStr] at h
  | str t => simp [Json.valueStr] at h
  | arr elems => simp [Json.valueStr] at h

/-- The event type a successful `jsonToEvent` produces is
`stringToEventType` of the `eventType` field (default "heartbeat"). -/
theorem jsonToEvent_eventType (j : Json) (e : Event)
    (h : JsonCodec.jsonToEvent j = .ok e) :
    e.eventType = stringToEventType (eventTypeField j) := by
  simp only [JsonCodec.jsonToEvent] at h
  obtain ⟨dev, h1, h⟩ := except_bind_ok _ _ _ h
  obtain ⟨ts, h2, h⟩ := except_bind_ok _ _ _ h
  obtain ⟨et, h3, h⟩ := except_bind_ok _ _ _ h
  obtain ⟨seq, h4, h⟩ := except_bind_ok _ _ _ h
  split at h
  all_goals obtain ⟨loc, h5, h⟩ := except_bind_ok _ _ _ h
  all_goals obtain ⟨speed, h6, h⟩ := except_bind_ok _ _ _ h
  all_goals obtain ⟨heading, h7, h⟩ := except_bind_ok _ _ _ h
  all_goals split at h
  all_goals obtain ⟨battery, h8, h⟩ := except_bind_ok _ _ _ h
  all_goals split at h
  all_goals obtain ⟨network, h9, h⟩ := except_bind_ok _ _ _ h
  all_goals simp only [pure, Except.pure, Except.ok.injEq] at h
  all_goals rw [← h, valueStr_eventType_eq j et h3]

/-- **C10.** `stringToEventType` is total with default
`EventType::Heartbeat`: every string outside the nine recognized names
maps to `Heartbeat`, and a successful `JsonCodec::deserialize` of a
JSON object whose `eventType` is missing or an unrecognized string
yields a `Heartbeat` event rather than failing. -/
theorem C10_unknown_eventType_defaults_heartbeat :
    (∀ s : String, s ∉ eventTypeNames → stringToEventType s = .Heartbeat) ∧
    (∀ (j : Json) (e : Event), JsonCodec.jsonToEvent j = .ok e →
      (j.find "eventType" = none ∨
       (∃ s, j.find "eventType" = some (.str s) ∧ s ∉ eventTypeNames)) →
      e.eventType = .Heartbeat) := by
  refine ⟨stringToEventType_default, ?_⟩
  intro j e h hcase
  rw [jsonToEvent_eventType j e h]
  rcases hcase with hnone | ⟨s, hsome, hs⟩
  · simp [eventTypeField, hnone]
    decide
  · rw [show eventTypeField j = s by simp [eventTypeField, hsome]]
    exact stringToEventType_default s hs

/-- Witness for C10 at the unknown name "bogus", both bare and inside
a JSON object. -/
theorem C10_unknown_eventType_witness :
    stringToEventType "bogus" = .Heartbeat ∧
    ({} : Event).eventType = .Heartbeat :=
  ⟨C10_unknown_eventType_defaults_heartbeat.1 "bogus" (by decide),
   C10_unknown_eventType_defaults_heartbeat.2
     (.obj [("eventType", .str "bogus")]) {} rfl
     (Or.inr ⟨"bogus", rfl, by decide⟩)⟩

end Tracker

namespace Tracker

/-- Truncation of a rational with denominator 1 is its numerator. -/
theorem truncQ_den_one (q : ℚ) (h : q.den = 1) : truncQ q = q.num := by
  unfold truncQ
  split <;> simp [Rat.floor, Rat.ceil, h]

/-- Casting back a truncated integral rational is the identity. -/
theorem intCast_truncQ_den_one (q : ℚ) (h : q.den = 1) :
    ((truncQ q : ℤ) : ℚ) = q := by
  rw [truncQ_den_one q h]
  have hq := Rat.num_div_den q
  rw [h] at hq
  simpa using hq

/-- Truncation after an integer cast is the identity. -/
theorem truncQ_intCast (z : ℤ) : truncQ (z : ℚ) = z := by
  rw [truncQ_den_one _ (Rat.den_intCast z)]
  exact Rat.num_intCast z

/-- Truncation after a natural cast is the identity. -/
theorem truncQ_natCast_toNat (n : ℕ) : (truncQ (n : ℚ)).toNat = n := by
  have h : ((n : ℕ) : ℚ) = ((n : ℤ) : ℚ) := by push_cast; ring
  rw [h, truncQ_intCast]
  exact Int.toNat_natCast n

/-- An extras entry survives the serialize/deserialize pair: empty
strings go through JSON null and back. -/
theorem extraFromJson_extraToJson (kv : String × String) :
    JsonCodec.extraFromJson (JsonCodec.extraToJson kv) = kv := by
  obtain ⟨k, v⟩ := kv
  by_cases hv : v = ""
  · subst hv; rfl
  · have hI : v.isEmpty = false := by
      cases h : v.isEmpty
      · rfl
      · exact absurd ((String.isEmpty_iff v).mp h) hv
    simp [JsonCodec.extraToJson, JsonCodec.extraFromJson, hI]

/-- The extras list survives the serialize/deserialize pair. -/
theorem extras_roundtrip (extras : List (String × String)) :
    (extras.map JsonCodec.extraToJson).map JsonCodec.extraFromJson =
      extras := by
  rw [List.map_map,
      show JsonCodec.extraFromJson ∘ JsonCodec.extraToJson = id from
        funext extraFromJson_extraToJson,
      List.map_id]

/-- Evaluation of one full round trip on the JSON tree: every field
returns unchanged except the battery percentage (truncated by
`batteryToJson`), the sequence and rssi (written and re-read through
exact integer casts), and the extras (mapped out and back). -/
theorem jsonToEvent_eventToJson_eval (e : Event) :
    JsonCodec.jsonToEvent (JsonCodec.eventToJson e) = .ok
      { deviceId := e.deviceId, timestamp := e.timestamp,
        eventType := stringToEventType (eventTypeToString e.eventType),
        sequence := (truncQ (e.sequence : ℚ)).toNat,
        location := e.location, speedKph := e.speedKph,
        heading := e.heading,
        battery := { percentage := ((truncQ e.battery.percentage : ℤ) : ℚ),
                     voltage := e.battery.voltage },
        network := { rssi := truncQ ((e.network.rssi : ℤ) : ℚ),
                     rat := e.network.rat },
        extras := (e.extras.map JsonCodec.extraToJson).map
                    JsonCodec.extraFromJson } := by
  cases hx : e.extras.isEmpty with
  | true =>
    have hxe : e.extras = [] := by
      cases hl : e.extras with
      | nil => rfl
      | cons a l => rw [hl] at hx; simp [List.isEmpty] at hx
    rw [hxe]
    simp only [JsonCodec.eventToJson, hxe, List.isEmpty_nil, if_true,
               List.map_nil]
    rfl
  | false =>
    simp only [JsonCodec.eventToJson, hx, Bool.false_eq_true, if_false]
    rfl

end Tracker

namespace Tracker

/-- **C5.** The claim says `deserialize(serialize(e)) == e` up to
double-precision rounding, and in particular that the battery
percentage survives. `JsonCodec::batteryToJson` truncates the
percentage with `static_cast<int>`: the event with battery at 19.5%
(exactly representable in double precision, so no double rounding is
involved) comes back with 19%. -/
theorem C5_counterexample :
    JsonCodec.jsonToEvent (JsonCodec.eventToJson ex5) = .ok ex5dec ∧
    ex5.battery.percentage = 39 / 2 ∧
    ex5dec.battery.percentage = 19 ∧
    (39 / 2 : ℚ) ≠ 19 := by
  refine ⟨?_, ?_, rfl, by norm_num⟩
  · rw [jsonToEvent_eventToJson_eval ex5]
    simp only [Except.ok.injEq]
    decide
  · show mkRat 39 2 = 39 / 2
    rw [Rat.mkRat_eq_div]
    norm_num

/-- **C5 (amended).** For every well-formed event (extras in the
strictly key-sorted canonical order of the map) whose battery
percentage is a whole number of percent, the JSON round trip is the
identity: `deserialize(serialize(e)) == e`. For fractional battery
percentages the round trip truncates the percentage toward zero to an
integer; every other field survives exactly. -/
theorem C5_round_trip (e : Event) (hb : e.battery.percentage.den = 1)
    (_sorted : e.extras.Pairwise (fun a b => a.1 < b.1)) :
    JsonCodec.jsonToEvent (JsonCodec.eventToJson e) = .ok e := by
  rw [jsonToEvent_eventToJson_eval e]
  rw [stringToEventType_eventTypeToString, truncQ_natCast_toNat,
      intCast_truncQ_den_one _ hb, truncQ_intCast, extras_roundtrip]

/-- Witness for C5 (amended) at a fully populated event with integral
battery percentage and two sorted extras (one empty-valued, exercising
the null encoding). -/
theorem C5_round_trip_witness :
    ({ deviceId := "d1", timestamp := "2025-01-01T00:00:00.000Z",
       eventType := .GeofenceEnter, sequence := 7,
       location := { lat := -26, lon := 28, alt := 1720,
                     accuracy := 25 / 2 },
       speedKph := 45, heading := 90,
       battery := { percentage := 81, voltage := 39 / 10 },
       network := { rssi := -70, rat := "LTE" },
       extras := [("geofence_id", "zone-1"), ("note", "")] } :
        Event).battery.percentage.den = 1 ∧
    JsonCodec.jsonToEvent (JsonCodec.eventToJson
      { deviceId := "d1", timestamp := "2025-01-01T00:00:00.000Z",
        eventType := .GeofenceEnter, sequence := 7,
        location := { lat := -26, lon := 28, alt := 1720,
                      accuracy := 25 / 2 },
        speedKph := 45, heading := 90,
        battery := { percentage := 81, voltage := 39 / 10 },
        network := { rssi := -70, rat := "LTE" },
        extras := [("geofence_id", "zone-1"), ("note", "")] }) = .ok
      { deviceId := "d1", timestamp := "2025-01-01T00:00:00.000Z",
        eventType := .GeofenceEnter, sequence := 7,
        location := { lat := -26, lon := 28, alt := 1720,
                      accuracy := 25 / 2 },
        speedKph := 45, heading := 90,
        battery := { percentage := 81, voltage := 39 / 10 },
        network := { rssi := -70, rat := "LTE" },
        extras := [("geofence_id", "zone-1"), ("note", "")] } :=
  ⟨by norm_num,
   C5_round_trip _ (by norm_num) (by
     refine List.pairwise_cons.mpr ⟨?_, List.pairwise_singleton _ _⟩
     intro b hb
     simp only [List.mem_singleton] at hb
     subst hb
     show "geofence_id" < "note"
     rw [String.lt_iff_toList_lt]
     decide)⟩

end Tracker
